import Mathlib

/-!
# Verification of the MCP adapter servers' session and dispatch core

This file is a shallow embedding, in Lean 4, of the authenticated-session
lifecycle manager and the operation-dispatch layer of the four MCP adapter
servers (gmail-mcp-server, gcal-mcp-server, gdrive-mcp-server,
apple-notes-mcp-server), together with theorems settling the specification
claims about them.

Modelling conventions:

* Python's JSON-like dynamic values are the inductive `JVal`.
* Python exceptions are `PyErr`, carrying the text of `str(e)`
  (in particular `str(KeyError("k")) = "'k'"`).
* Effectful code runs in the monad `Eff`, which threads a read-only
  oracle `Env` (outcomes of token-refresh exchanges, interactive
  authorization flows, Google API calls and AppleScript invocations)
  and a `World` (the local filesystem plus a trace of the externally
  visible events issued so far).  An event is appended to the trace at
  the moment the corresponding external call is made, whether or not
  the call succeeds, so "no external call occurred" is "the trace is
  unchanged".
* The filesystem is an association list from path strings to
  `FileContent`; a credential-token file stores its parsed `Creds`
  directly (serialization of the bundle is injective and is abstracted
  away), every other content is opaque.
* Byte-level message encoding (MIME construction, base64) and the exact
  AppleScript program text are declared non-goals by the specification;
  a MIME message is modelled as its header/body structure `Mime`, and an
  AppleScript program as the constructor of `Script` recording which
  script was built and the values interpolated into it.
-/

set_option maxHeartbeats 1000000

namespace MCP

/-- Python JSON-like values (the argument and result values of tools). -/
inductive JVal where
  | null : JVal
  | bool : Bool → JVal
  | int : Int → JVal
  | str : String → JVal
  | arr : List JVal → JVal
  | obj : List (String × JVal) → JVal
deriving Repr, BEq

mutual
/-- Size of a JSON value: an executable bound on its nesting, used as
fuel for the recursions of `_extract_body` and `find_attachments`. -/
def jSize : JVal → Nat
  | .null => 1
  | .bool _ => 1
  | .int _ => 1
  | .str _ => 1
  | .arr xs => 1 + jSizeList xs
  | .obj kvs => 1 + jSizeObj kvs
/-- Size of a list of JSON values. -/
def jSizeList : List JVal → Nat
  | [] => 0
  | x :: xs => 1 + jSize x + jSizeList xs
/-- Size of the entries of a JSON object. -/
def jSizeObj : List (String × JVal) → Nat
  | [] => 0
  | kv :: kvs => 1 + jSize kv.2 + jSizeObj kvs
end

/-- A raised Python exception, identified by its `str(e)` text. -/
structure PyErr where
  msg : String
deriving Repr, DecidableEq

/-- Python `str()` of a value, for values flowing into f-strings and path
names.  Containers are abbreviated (no claim depends on their rendering). -/
def pyStr : JVal → String
  | .null => "None"
  | .bool b => if b then "True" else "False"
  | .int n => toString n
  | .str s => s
  | .arr _ => "[...]"
  | .obj _ => "{...}"

/-- Python truthiness of a value. -/
def pyTruthy : JVal → Bool
  | .null => false
  | .bool b => b
  | .int n => n != 0
  | .str s => s ≠ ""
  | .arr xs => !xs.isEmpty
  | .obj kvs => !kvs.isEmpty

/-- Python `sub in s`: substring containment, as infix of the character
lists. -/
def strContains (s sub : String) : Bool := decide (sub.data <:+: s.data)

/-- The argument mapping of a request: parameter name to value. -/
def Args := List (String × JVal)

/-- Python `d.get(k)`: `None`-free lookup returning an `Option`. -/
def dictGet (args : Args) (k : String) : Option JVal :=
  (List.lookup k args : Option JVal)

/-- Python `d.get(k, default)`. -/
def dictGetD (args : Args) (k : String) (d : JVal) : JVal :=
  (dictGet args k).getD d

/-- Lookup on a `JVal.obj` (`v.get(k)` on a parsed JSON object);
`none` when the value is not an object or lacks the key. -/
def jGet (v : JVal) (k : String) : Option JVal :=
  match v with
  | .obj kvs => List.lookup k kvs
  | _ => none

/-- Model of `v.get(k, default)` on a parsed JSON object. -/
def jGetD (v : JVal) (k : String) (d : JVal) : JVal :=
  (jGet v k).getD d

/-- The elements of a JSON array (`[]` when the value is not an array;
the handlers only iterate values their schemas declare to be arrays). -/
def jArr : JVal → List JVal
  | .arr xs => xs
  | _ => []

/-- String content of a schema-declared string value (Python code uses the
value directly; non-strings are rendered via `str`). -/
def jStrD (v : JVal) (d : String) : String :=
  match v with
  | .str s => s
  | .null => d
  | v => pyStr v

/-- A stored delegated-access credential bundle, as the google-auth
library presents it after parsing an authorized-user file:
`valid` is `token and not expired`. -/
structure Creds where
  hasToken : Bool
  expired : Bool
  hasRefreshToken : Bool
  tokenData : String
deriving Repr, DecidableEq

/-- google-auth `Credentials.valid`. -/
def Creds.valid (c : Creds) : Bool := c.hasToken && !c.expired

/-- Content of a file on the local filesystem.  A token file stores its
parsed bundle directly (`creds.to_json` / `from_authorized_user_file`
round-trip); any other byte content is `raw`. -/
inductive FileContent where
  | tokenJson : Creds → FileContent
  | clientSecrets : FileContent
  | raw : String → FileContent
deriving Repr, DecidableEq

/-- A MIME message as assembled by the handlers: `MIMEText(body)` plus the
headers set on it, in order.  The base64url encoding of `as_bytes()` is
injective and abstracted away. -/
structure Mime where
  body : String
  headers : List (String × String)
deriving Repr, BEq

/-- One HTTP call issued through a Google API service handle.  Each
constructor records the method chain and the request values. -/
inductive ApiCall where
  | getProfile
  | messagesList (q : JVal) (maxResults : JVal)
  | messagesGetMetadata (id : JVal) (metadataHeaders : List String)
  | messagesGetFull (id : JVal)
  | messagesSend (raw : Mime)
  | draftsCreate (raw : Mime) (threadId : Option JVal)
  | labelsList
  | messagesModify (id : JVal) (body : JVal)
  | threadsGet (id : JVal) (metadataHeaders : List String)
  | draftsList (maxResults : JVal)
  | draftsGet (id : JVal)
  | attachmentsGet (messageId : JVal) (attachmentId : JVal)
deriving Repr, BEq

/-- One AppleScript program handed to `osascript`, identified by which
script the handler built and the values interpolated into it (the exact
program text is a declared non-goal of the design). -/
inductive Script where
  | listAccounts
  | listFoldersIn (account : String)
  | listFoldersAll
  | listNotesInFolder (folder : String) (maxResults : JVal)
  | listNotesAll (maxResults : JVal)
  | getNote (noteId : String)
  | getNoteHtml (noteId : String)
  | createNoteIn (account : String) (folder : String) (htmlBody : String)
  | createNote (folder : String) (htmlBody : String)
  | setNoteBody (noteId : String) (htmlBody : String)
  | setNoteName (noteId : String) (name : String)
  | getNoteName (noteId : String)
  | searchNotes (query : String) (maxResults : JVal)
  | deleteNote (noteId : String)
  | showNote (noteId : String)
deriving Repr, BEq

/-- An externally visible event: the moments the core touches the world
beyond its own filesystem. -/
inductive Event where
  | refreshExchange (integration : String)
  | interactiveAuth (integration : String)
  | api (c : ApiCall)
  | osascript (s : Script)
deriving Repr, BEq

/-- Is this event an interactive-authorization attempt? -/
def Event.isInteractiveAuth : Event → Bool
  | .interactiveAuth _ => true
  | _ => false

/-- Is this event a refresh exchange? -/
def Event.isRefreshExchange : Event → Bool
  | .refreshExchange _ => true
  | _ => false

/-- The oracle for every external outcome: what a refresh exchange, an
interactive authorization flow, an API call or an AppleScript run would
return.  Theorems quantify over it. -/
structure Env where
  refreshResult : String → Creds → Except PyErr Creds
  flowResult : String → Except PyErr Creds
  api : ApiCall → Except PyErr JVal
  osa : Script → Except String String

/-- The mutable world: the local filesystem and the trace of external
events issued so far. -/
structure World where
  fs : List (String × FileContent)
  trace : List Event

/-- The effect monad of the embedding: oracle-reading, world-passing,
exception-raising computations. -/
structure Eff (α : Type) where
  run : Env → World → Except PyErr α × World

instance : Monad Eff where
  pure a := ⟨fun _ w => (Except.ok a, w)⟩
  bind m f := ⟨fun env w =>
    match m.run env w with
    | (Except.ok a, w') => (f a).run env w'
    | (Except.error e, w') => (Except.error e, w')⟩

/-- Raise a Python exception. -/
def eRaise (e : PyErr) : Eff α := ⟨fun _ w => (Except.error e, w)⟩

/-- Lift a pure `Except` computation. -/
def liftE (x : Except PyErr α) : Eff α := ⟨fun _ w => (x, w)⟩

/-- Python `try: m except Exception as e: h e`. -/
def tryEff (m : Eff α) (h : PyErr → Eff α) : Eff α :=
  ⟨fun env w =>
    match m.run env w with
    | (Except.ok a, w') => (Except.ok a, w')
    | (Except.error e, w') => (h e).run env w'⟩

/-- Remove a file (no-op when absent). -/
def fsDel : List (String × FileContent) → String → List (String × FileContent)
  | [], _ => []
  | kv :: rest, p => if kv.1 == p then fsDel rest p else kv :: fsDel rest p

/-- Store a file, overwriting any previous content at the path. -/
def fsSet (fs : List (String × FileContent)) (p : String) (c : FileContent) :
    List (String × FileContent) :=
  fsDel fs p ++ [(p, c)]

/-- Content at a path, if present. -/
def fsGet (fs : List (String × FileContent)) (p : String) : Option FileContent :=
  List.lookup p fs

/-- Model of `path.exists()`. -/
def fsExists (p : String) : Eff Bool :=
  ⟨fun _ w => (Except.ok (fsGet w.fs p).isSome, w)⟩

/-- Read a file's content (`none` when absent). -/
def fsRead (p : String) : Eff (Option FileContent) :=
  ⟨fun _ w => (Except.ok (fsGet w.fs p), w)⟩

/-- Model of `open(path, "w").write(...)` (with `mkdir(parents=True, exist_ok=True)`
before it; directories are not modelled). -/
def fsWrite (p : String) (c : FileContent) : Eff Unit :=
  ⟨fun _ w => (Except.ok (), { w with fs := fsSet w.fs p c })⟩

/-- Model of `path.unlink()`. -/
def fsUnlink (p : String) : Eff Unit :=
  ⟨fun _ w => (Except.ok (), { w with fs := fsDel w.fs p })⟩

/-- Model of `creds.refresh(Request())`: one refresh exchange against the external
authorization server.  The event is recorded whether or not it succeeds. -/
def doRefresh (integration : String) (c : Creds) : Eff Creds :=
  ⟨fun env w =>
    (env.refreshResult integration c,
     { w with trace := w.trace ++ [Event.refreshExchange integration] })⟩

/-- Model of `flow.run_local_server(port=0)`: one blocking interactive
authorization attempt. -/
def runFlow (integration : String) : Eff Creds :=
  ⟨fun env w =>
    (env.flowResult integration,
     { w with trace := w.trace ++ [Event.interactiveAuth integration] })⟩

/-- One `.execute()` of a Google API request through a service handle. -/
def apiExec (c : ApiCall) : Eff JVal :=
  ⟨fun env w =>
    (env.api c, { w with trace := w.trace ++ [Event.api c] })⟩

/-- Model of `run_applescript_multi`: feed a script to `osascript`; a nonzero exit
raises `RuntimeError(f"AppleScript error: {stderr}")`, success returns
`stdout.strip()`. -/
def runApplescriptMulti (s : Script) : Eff String :=
  ⟨fun env w =>
    (match env.osa s with
     | Except.ok out => Except.ok out.trim
     | Except.error err => Except.error ⟨"AppleScript error: " ++ err⟩,
     { w with trace := w.trace ++ [Event.osascript s] })⟩

/-- Python `arguments[k]`: lookup raising `KeyError(k)` when absent
(`str(KeyError("k"))` is `"'k'"`). -/
def dictIndex (args : Args) (k : String) : Eff JVal :=
  match dictGet args k with
  | some v => pure v
  | none => eRaise ⟨"'" ++ k ++ "'"⟩

/-- Model of `from_authorized_user_file`: parse a stored token file into a bundle;
an unparseable file raises. -/
def from_authorized_user_file (content : FileContent) : Except PyErr Creds :=
  match content with
  | .tokenJson c => Except.ok c
  | _ => Except.error ⟨"File could not be parsed as authorized user credentials"⟩

/-- A live API service handle: `build(api, version, credentials=creds)`,
bound to the credential bundle it was built from. -/
structure Service where
  api : String
  creds : Creds
deriving Repr, DecidableEq

@[simp] theorem Eff.run_pure (a : α) (env : Env) (w : World) :
    (pure a : Eff α).run env w = (Except.ok a, w) := rfl

@[simp] theorem Eff.run_bind (m : Eff α) (f : α → Eff β) (env : Env) (w : World) :
    (m >>= f).run env w =
      match m.run env w with
      | (Except.ok a, w') => (f a).run env w'
      | (Except.error e, w') => (Except.error e, w') := rfl

@[simp] theorem tryEff_run (m : Eff α) (h : PyErr → Eff α) (env : Env) (w : World) :
    (tryEff m h).run env w =
      match m.run env w with
      | (Except.ok a, w') => (Except.ok a, w')
      | (Except.error e, w') => (h e).run env w' := rfl

@[simp] theorem fsExists_run (p : String) (env : Env) (w : World) :
    (fsExists p).run env w = (Except.ok (fsGet w.fs p).isSome, w) := rfl

@[simp] theorem fsRead_run (p : String) (env : Env) (w : World) :
    (fsRead p).run env w = (Except.ok (fsGet w.fs p), w) := rfl

@[simp] theorem fsWrite_run (p : String) (c : FileContent) (env : Env) (w : World) :
    (fsWrite p c).run env w = (Except.ok (), { w with fs := fsSet w.fs p c }) := rfl

@[simp] theorem fsUnlink_run (p : String) (env : Env) (w : World) :
    (fsUnlink p).run env w = (Except.ok (), { w with fs := fsDel w.fs p }) := rfl

@[simp] theorem doRefresh_run (integ : String) (c : Creds) (env : Env) (w : World) :
    (doRefresh integ c).run env w =
      (env.refreshResult integ c,
       { w with trace := w.trace ++ [Event.refreshExchange integ] }) := rfl

@[simp] theorem runFlow_run (integ : String) (env : Env) (w : World) :
    (runFlow integ).run env w =
      (env.flowResult integ,
       { w with trace := w.trace ++ [Event.interactiveAuth integ] }) := rfl

@[simp] theorem apiExec_run (c : ApiCall) (env : Env) (w : World) :
    (apiExec c).run env w =
      (env.api c, { w with trace := w.trace ++ [Event.api c] }) := rfl

@[simp] theorem eRaise_run (e : PyErr) (env : Env) (w : World) :
    (eRaise e : Eff α).run env w = (Except.error e, w) := rfl

@[simp] theorem liftE_run (x : Except PyErr α) (env : Env) (w : World) :
    (liftE x).run env w = (x, w) := rfl

/-- One outgoing content frame (`TextContent(type="text", text=...)`).
A success payload is `json v` (the frame whose text is
`json.dumps(v, indent=2)`; serialization of a `JVal` is injective and
abstracted into the constructor), any other frame is its literal text. -/
inductive TextOut where
  | json : JVal → TextOut
  | text : String → TextOut
deriving Repr, BEq

/-- Outcome of the `if name == ...` chain of a `call_tool` body: a handler
result, or fall-through to the unknown-tool arm. -/
inductive Dispatched where
  | result : JVal → Dispatched
  | unknown : Dispatched
deriving Repr, BEq

namespace Gmail

/-- Model of `CONFIG_DIR = Path.home() / ".config" / "gmail-mcp"`. -/
def CONFIG_DIR : String := "~/.config/gmail-mcp"

/-- Model of `CREDENTIALS_FILE = CONFIG_DIR / "credentials.json"`. -/
def CREDENTIALS_FILE : String := CONFIG_DIR ++ "/credentials.json"

/-- Account aliases: map friendly names to token files. -/
def ACCOUNTS : List (String × String) :=
  [("primary", "token.json"), ("secondary", "token_secondary.json")]

/-- Model of `get_token_file`: token file path for an account. -/
def get_token_file (account : String := "primary") : String :=
  match List.lookup account ACCOUNTS with
  | some fn => CONFIG_DIR ++ "/" ++ fn
  | none => CONFIG_DIR ++ "/" ++ ("token_" ++ account ++ ".json")

/-- The `FileNotFoundError` message raised when the client-registration
material is missing. -/
def credsNotFoundMsg : String :=
  "Gmail credentials not found at " ++ CREDENTIALS_FILE ++ "."

/-- The `else` arm of the credential acquisition in `get_gmail_service`:
check for the client-secrets file, raise `FileNotFoundError` when absent,
otherwise run the interactive `InstalledAppFlow` to obtain fresh creds. -/
def interactiveAcquire : Eff Creds := do
  let haveSecrets ← fsExists CREDENTIALS_FILE
  if haveSecrets then
    runFlow "gmail"
  else
    eRaise ⟨credsNotFoundMsg⟩

/-- Model of `get_gmail_service`: load the stored bundle if present; when absent or
invalid, refresh (expired with a refresh token) or run the interactive
flow, persist the new bundle, and build the service handle. -/
def get_gmail_service (account : String := "primary") : Eff Service := do
  let token_file := get_token_file account
  let stored ← fsRead token_file
  match stored with
  | some fc => do
      let creds ← liftE (from_authorized_user_file fc)
      if creds.valid then
        pure ⟨"gmail", creds⟩
      else do
        let creds2 ←
          if creds.expired && creds.hasRefreshToken then
            doRefresh "gmail" creds
          else
            interactiveAcquire
        fsWrite token_file (FileContent.tokenJson creds2)
        pure ⟨"gmail", creds2⟩
  | none => do
      let creds2 ← interactiveAcquire
      fsWrite token_file (FileContent.tokenJson creds2)
      pure ⟨"gmail", creds2⟩

/-- Model of `reauth`: delete the existing token (if any) and re-authenticate. -/
def reauth (account : String := "primary") : Eff JVal := do
  let token_file := get_token_file account
  let ex ← fsExists token_file
  if ex then
    fsUnlink token_file
  let _ ← get_gmail_service account
  pure (JVal.obj
    [("success", JVal.bool true),
     ("message", JVal.str
       ("Re-authenticated successfully with Gmail (" ++ account ++ ")"))])

/-- Index into a parsed JSON object (`msg["id"]`), raising `KeyError`
when the key is absent. -/
def jIndex (v : JVal) (k : String) : Eff JVal :=
  match jGet v k with
  | some x => pure x
  | none => eRaise ⟨"'" ++ k ++ "'"⟩

/-- Model of `base64.urlsafe_b64decode(data).decode("utf-8")`: the encoding is
injective content shuffling and is abstracted as the identity. -/
def b64decode (s : String) : String := s

/-- The header dictionary `{h["name"]: h["value"] for h in
msg.get("payload", {}).get("headers", [])}`. -/
def headerMap (msg : JVal) : List (String × JVal) :=
  (jArr (jGetD (jGetD msg "payload" (JVal.obj [])) "headers" (JVal.arr []))).map
    (fun h => (jStrD (jGetD h "name" JVal.null) "", jGetD h "value" JVal.null))

/-- Model of `headers.get(k, d)` as a JSON value. -/
def hGet (hm : List (String × JVal)) (k : String) (d : String) : JVal :=
  (List.lookup k hm).getD (JVal.str d)

/-- Model of `headers.get(k, d)` used as a string. -/
def hGetS (hm : List (String × JVal)) (k : String) (d : String) : String :=
  jStrD (hGet hm k d) d

/-- Truthiness of `headers.get(k)`. -/
def hTruthy (hm : List (String × JVal)) (k : String) : Bool :=
  pyTruthy ((List.lookup k hm).getD JVal.null)

/-- Model of `x or []` on an optional label list. -/
def pyOrList (v : JVal) : JVal :=
  if pyTruthy v then v else JVal.arr []

/-- A part carrying direct `text/plain` data, decoded
(the body of the first loop in `_extract_body`). -/
def partPlainData (part : JVal) : Option String :=
  if jStrD (jGetD part "mimeType" JVal.null) "" == "text/plain" &&
     pyTruthy (jGetD (jGetD part "body" (JVal.obj [])) "data" JVal.null) then
    some (b64decode (jStrD (jGetD (jGetD part "body" (JVal.obj [])) "data" JVal.null) ""))
  else
    none

/-- Model of `_extract_body`: recursively extract the text/plain body from a
message payload.  The recursion of the source is on the finite nesting
of the payload value; the `fuel` argument bounds it (callers pass
`sizeOf payload`, which the nesting never exceeds). -/
def extract_body : Nat → JVal → String
  | 0, _ => ""
  | Nat.succ fuel, payload =>
    let direct : Option String :=
      match jGet payload "body" with
      | some b =>
          if pyTruthy (jGetD b "data" JVal.null) then
            some (b64decode (jStrD (jGetD b "data" JVal.null) ""))
          else
            none
      | none => none
    match direct with
    | some s => s
    | none =>
      match jGet payload "parts" with
      | some ps =>
        let parts := jArr ps
        match parts.findSome? partPlainData with
        | some s => s
        | none =>
          match parts.findSome? (fun part =>
              if pyTruthy (jGetD part "parts" JVal.null) then
                let r := extract_body fuel part
                if r ≠ "" then some r else none
              else none) with
          | some s => s
          | none => ""
      | none => ""

/-- Model of `list_accounts`: status of each configured account alias; a failure
while probing an account is swallowed (`except: pass`) and leaves its
email empty. -/
def list_accounts : Eff JVal := do
  let entries ← ACCOUNTS.mapM (fun nf => do
    let token_file := CONFIG_DIR ++ "/" ++ nf.2
    let configured ← fsExists token_file
    let email ←
      if configured then
        tryEff
          (do
            let _service ← get_gmail_service nf.1
            let profile ← apiExec ApiCall.getProfile
            pure (jStrD (jGetD profile "emailAddress" (JVal.str "")) ""))
          (fun _ => pure "")
      else
        pure ""
    pure (JVal.obj
      [("name", JVal.str nf.1), ("configured", JVal.bool configured),
       ("email", JVal.str email)]))
  pure (JVal.arr entries)

/-- Model of `list_messages`: list matching messages, then fetch per-message
metadata. -/
def list_messages (query : JVal := JVal.str "") (max_results : JVal := JVal.int 10)
    (account : String := "primary") : Eff JVal := do
  let _service ← get_gmail_service account
  let results ← apiExec (ApiCall.messagesList query max_results)
  let messages := jArr (jGetD results "messages" (JVal.arr []))
  let detailed ← messages.mapM (fun msg => do
    let mid ← jIndex msg "id"
    let msg_detail ← apiExec
      (ApiCall.messagesGetMetadata mid ["From", "To", "Subject", "Date"])
    let headers := headerMap msg_detail
    let tid ← jIndex msg "threadId"
    pure (JVal.obj
      [("id", mid), ("threadId", tid),
       ("snippet", jGetD msg_detail "snippet" (JVal.str "")),
       ("from", hGet headers "From" ""), ("to", hGet headers "To" ""),
       ("subject", hGet headers "Subject" ""), ("date", hGet headers "Date" "")]))
  pure (JVal.arr detailed)

/-- Model of `get_message`: full message content by ID. -/
def get_message (message_id : JVal) (account : String := "primary") : Eff JVal := do
  let _service ← get_gmail_service account
  let msg ← apiExec (ApiCall.messagesGetFull message_id)
  let headers := headerMap msg
  let payload := jGetD msg "payload" (JVal.obj [])
  let body := extract_body (jSize payload) payload
  let mid ← jIndex msg "id"
  let tid ← jIndex msg "threadId"
  pure (JVal.obj
    [("id", mid), ("threadId", tid),
     ("from", hGet headers "From" ""), ("to", hGet headers "To" ""),
     ("subject", hGet headers "Subject" ""), ("date", hGet headers "Date" ""),
     ("body", JVal.str body), ("labels", jGetD msg "labelIds" (JVal.arr []))])

/-- Model of `send_message`: build a MIME message and send it. -/
def send_message («to» : JVal) (subject : JVal) (body : JVal)
    (account : String := "primary") : Eff JVal := do
  let _service ← get_gmail_service account
  let message : Mime := ⟨jStrD body "", [("to", jStrD «to» ""), ("subject", jStrD subject "")]⟩
  let sent ← apiExec (ApiCall.messagesSend message)
  let sid ← jIndex sent "id"
  let stid ← jIndex sent "threadId"
  pure (JVal.obj [("id", sid), ("threadId", stid)])

/-- Model of `search_messages`: delegates to `list_messages`. -/
def search_messages (query : JVal) (max_results : JVal := JVal.int 20)
    (account : String := "primary") : Eff JVal :=
  list_messages query max_results account

/-- Model of `list_labels`. -/
def list_labels (account : String := "primary") : Eff JVal := do
  let _service ← get_gmail_service account
  let results ← apiExec ApiCall.labelsList
  let labels := jArr (jGetD results "labels" (JVal.arr []))
  let out ← labels.mapM (fun l => do
    let lid ← jIndex l "id"
    let lname ← jIndex l "name"
    pure (JVal.obj [("id", lid), ("name", lname), ("type", jGetD l "type" (JVal.str ""))]))
  pure (JVal.arr out)

/-- Model of `modify_labels`. -/
def modify_labels (message_id : JVal) (add_labels : JVal := JVal.null)
    (remove_labels : JVal := JVal.null) (account : String := "primary") : Eff JVal := do
  let _service ← get_gmail_service account
  let body := JVal.obj
    [("addLabelIds", pyOrList add_labels), ("removeLabelIds", pyOrList remove_labels)]
  let result ← apiExec (ApiCall.messagesModify message_id body)
  let rid ← jIndex result "id"
  pure (JVal.obj [("id", rid), ("labels", jGetD result "labelIds" (JVal.arr []))])

/-- Model of `archive_message`: remove the INBOX label. -/
def archive_message (message_id : JVal) (account : String := "primary") : Eff JVal :=
  modify_labels message_id JVal.null (JVal.arr [JVal.str "INBOX"]) account

/-- Model of `mark_read`: remove the UNREAD label. -/
def mark_read (message_id : JVal) (account : String := "primary") : Eff JVal :=
  modify_labels message_id JVal.null (JVal.arr [JVal.str "UNREAD"]) account

/-- Model of `mark_unread`: add the UNREAD label. -/
def mark_unread (message_id : JVal) (account : String := "primary") : Eff JVal :=
  modify_labels message_id (JVal.arr [JVal.str "UNREAD"]) JVal.null account

/-- Model of `create_draft`. -/
def create_draft («to» : JVal) (subject : JVal) (body : JVal)
    (account : String := "primary") : Eff JVal := do
  let _service ← get_gmail_service account
  let message : Mime := ⟨jStrD body "", [("to", jStrD «to» ""), ("subject", jStrD subject "")]⟩
  let draft ← apiExec (ApiCall.draftsCreate message none)
  let did ← jIndex draft "id"
  let dmsg ← jIndex draft "message"
  let dmid ← jIndex dmsg "id"
  pure (JVal.obj [("id", did), ("message_id", dmid)])

/-- Model of `create_draft_reply`. -/
def create_draft_reply (message_id : JVal) (body : JVal)
    (reply_all : JVal := JVal.bool false) (account : String := "primary") : Eff JVal := do
  let _service ← get_gmail_service account
  let original ← apiExec (ApiCall.messagesGetMetadata message_id
    ["From", "To", "Cc", "Subject", "Message-ID", "References"])
  let headers := headerMap original
  let thread_id ← jIndex original "threadId"
  let reply_to := hGetS headers "From" ""
  let ccHeader : List (String × String) :=
    if pyTruthy reply_all then
      let cc_list :=
        (if hTruthy headers "To" then [hGetS headers "To" ""] else []) ++
        (if hTruthy headers "Cc" then [hGetS headers "Cc" ""] else [])
      if cc_list ≠ [] then [("cc", String.intercalate ", " cc_list)] else []
    else []
  let subject0 := hGetS headers "Subject" ""
  let subject := if subject0.toLower.startsWith "re:" then subject0 else "Re: " ++ subject0
  let message_id_header := hGetS headers "Message-ID" ""
  let refHeaders : List (String × String) :=
    if message_id_header ≠ "" then
      let references := hGetS headers "References" ""
      [("In-Reply-To", message_id_header),
       ("References",
        if references ≠ "" then references ++ " " ++ message_id_header
        else message_id_header)]
    else []
  let message : Mime :=
    ⟨jStrD body "", [("to", reply_to)] ++ ccHeader ++ [("subject", subject)] ++ refHeaders⟩
  let draft ← apiExec (ApiCall.draftsCreate message (some thread_id))
  let did ← jIndex draft "id"
  let dmsg ← jIndex draft "message"
  let dmid ← jIndex dmsg "id"
  pure (JVal.obj [("id", did), ("message_id", dmid), ("thread_id", thread_id)])

/-- Model of `_build_forward_body`. -/
def build_forward_body (original_msg : JVal) (additional_text : String := "") : String :=
  let headers := headerMap original_msg
  let payload := jGetD original_msg "payload" (JVal.obj [])
  let original_body :=
    if (jGet payload "body").isSome &&
       pyTruthy (jGetD (jGetD payload "body" (JVal.obj [])) "data" JVal.null) then
      b64decode (jStrD (jGetD (jGetD payload "body" (JVal.obj [])) "data" JVal.null) "")
    else if (jGet payload "parts").isSome then
      match (jArr (jGetD payload "parts" (JVal.arr []))).findSome? partPlainData with
      | some s => s
      | none => ""
    else ""
  let forward_header :=
    "\n---------- Forwarded message ---------\nFrom: " ++ hGetS headers "From" "" ++
    "\nDate: " ++ hGetS headers "Date" "" ++
    "\nSubject: " ++ hGetS headers "Subject" "" ++
    "\nTo: " ++ hGetS headers "To" "" ++ "\n\n"
  let start := if additional_text ≠ "" then additional_text ++ "\n" else ""
  start ++ forward_header ++ original_body

/-- Model of `create_draft_forward`. -/
def create_draft_forward (message_id : JVal) («to» : JVal) (body : JVal := JVal.str "")
    (account : String := "primary") : Eff JVal := do
  let _service ← get_gmail_service account
  let original ← apiExec (ApiCall.messagesGetFull message_id)
  let headers := headerMap original
  let forward_body := build_forward_body original (jStrD body "")
  let subject0 := hGetS headers "Subject" ""
  let subject := if subject0.toLower.startsWith "fwd:" then subject0 else "Fwd: " ++ subject0
  let message : Mime := ⟨forward_body, [("to", jStrD «to» ""), ("subject", subject)]⟩
  let draft ← apiExec (ApiCall.draftsCreate message none)
  let did ← jIndex draft "id"
  let dmsg ← jIndex draft "message"
  let dmid ← jIndex dmsg "id"
  pure (JVal.obj [("id", did), ("message_id", dmid)])

/-- Model of `forward_message`. -/
def forward_message (message_id : JVal) («to» : JVal) (body : JVal := JVal.str "")
    (account : String := "primary") : Eff JVal := do
  let _service ← get_gmail_service account
  let original ← apiExec (ApiCall.messagesGetFull message_id)
  let headers := headerMap original
  let forward_body := build_forward_body original (jStrD body "")
  let subject0 := hGetS headers "Subject" ""
  let subject := if subject0.toLower.startsWith "fwd:" then subject0 else "Fwd: " ++ subject0
  let message : Mime := ⟨forward_body, [("to", jStrD «to» ""), ("subject", subject)]⟩
  let sent ← apiExec (ApiCall.messagesSend message)
  let sid ← jIndex sent "id"
  let stid ← jIndex sent "threadId"
  pure (JVal.obj [("id", sid), ("threadId", stid)])

/-- Model of `get_thread`. -/
def get_thread (thread_id : JVal) (account : String := "primary") : Eff JVal := do
  let _service ← get_gmail_service account
  let thread ← apiExec (ApiCall.threadsGet thread_id ["From", "To", "Subject", "Date"])
  let msgs ← (jArr (jGetD thread "messages" (JVal.arr []))).mapM (fun msg => do
    let headers := headerMap msg
    let mid ← jIndex msg "id"
    pure (JVal.obj
      [("id", mid), ("snippet", jGetD msg "snippet" (JVal.str "")),
       ("from", hGet headers "From" ""), ("to", hGet headers "To" ""),
       ("subject", hGet headers "Subject" ""), ("date", hGet headers "Date" ""),
       ("labels", jGetD msg "labelIds" (JVal.arr []))]))
  let tid ← jIndex thread "id"
  pure (JVal.obj
    [("id", tid), ("message_count", JVal.int msgs.length), ("messages", JVal.arr msgs)])

/-- Model of `list_drafts`. -/
def list_drafts (max_results : JVal := JVal.int 10)
    (account : String := "primary") : Eff JVal := do
  let _service ← get_gmail_service account
  let results ← apiExec (ApiCall.draftsList max_results)
  let drafts ← (jArr (jGetD results "drafts" (JVal.arr []))).mapM (fun draft => do
    let did ← jIndex draft "id"
    let detail ← apiExec (ApiCall.draftsGet did)
    let msg := jGetD detail "message" (JVal.obj [])
    let headers := headerMap msg
    pure (JVal.obj
      [("id", did), ("message_id", jGetD msg "id" (JVal.str "")),
       ("to", hGet headers "To" ""), ("subject", hGet headers "Subject" ""),
       ("snippet", jGetD msg "snippet" (JVal.str ""))]))
  pure (JVal.arr drafts)

/-- Model of `get_attachment`. -/
def get_attachment (message_id : JVal) (attachment_id : JVal)
    (account : String := "primary") : Eff JVal := do
  let _service ← get_gmail_service account
  let attachment ← apiExec (ApiCall.attachmentsGet message_id attachment_id)
  pure (JVal.obj
    [("size", jGetD attachment "size" (JVal.int 0)),
     ("data_base64", jGetD attachment "data" (JVal.str ""))])

/-- Model of `find_attachments`: walk message parts collecting attachment
descriptors.  `fuel` bounds the nesting as in `extract_body`. -/
def find_attachments : Nat → List JVal → List JVal
  | 0, _ => []
  | _, [] => []
  | Nat.succ fuel, part :: rest =>
    let pbody := jGetD part "body" (JVal.obj [])
    let here :=
      if pyTruthy (jGetD part "filename" JVal.null) &&
         pyTruthy (jGetD pbody "attachmentId" JVal.null) then
        [JVal.obj
          [("id", jGetD pbody "attachmentId" JVal.null),
           ("filename", jGetD part "filename" JVal.null),
           ("mimeType", jGetD part "mimeType" (JVal.str "")),
           ("size", jGetD pbody "size" (JVal.int 0))]]
      else []
    let nested :=
      if pyTruthy (jGetD part "parts" JVal.null) then
        find_attachments fuel (jArr (jGetD part "parts" (JVal.arr [])))
      else []
    here ++ nested ++ find_attachments (Nat.succ fuel) rest
termination_by fuel l => (fuel, l.length)

/-- Model of `list_attachments`. -/
def list_attachments (message_id : JVal) (account : String := "primary") : Eff JVal := do
  let _service ← get_gmail_service account
  let msg ← apiExec (ApiCall.messagesGetFull message_id)
  let payload := jGetD msg "payload" (JVal.obj [])
  let attachments :=
    if pyTruthy (jGetD payload "parts" JVal.null) then
      find_attachments (jSize payload) (jArr (jGetD payload "parts" (JVal.arr [])))
    else []
  pure (JVal.arr attachments)

/-- List of the tool names registered by `list_tools` of the gmail
server (the registry of dispatchable operation names). -/
def toolNames : List String :=
  ["gmail_list_accounts", "gmail_list", "gmail_get", "gmail_search",
   "gmail_send", "gmail_create_draft", "gmail_list_labels", "gmail_archive",
   "gmail_mark_read", "gmail_mark_unread", "gmail_modify_labels",
   "gmail_create_draft_reply", "gmail_create_draft_forward", "gmail_forward",
   "gmail_get_thread", "gmail_list_drafts", "gmail_list_attachments",
   "gmail_get_attachment", "gmail_reauth"]

/-- The `if name == ... elif ...` chain in the body of the gmail
`call_tool`: extract arguments (direct indexing for required ones, `.get`
with a default for optional ones, in source order) and invoke the handler. -/
def dispatch (name : String) (args : Args) : Eff Dispatched := do
  let account := pyStr (dictGetD args "account" (JVal.str "primary"))
  if name == "gmail_list_accounts" then
    Dispatched.result <$> list_accounts
  else if name == "gmail_list" then
    Dispatched.result <$> list_messages (dictGetD args "query" (JVal.str ""))
      (dictGetD args "max_results" (JVal.int 10)) account
  else if name == "gmail_get" then do
    let mid ← dictIndex args "message_id"
    Dispatched.result <$> get_message mid account
  else if name == "gmail_search" then do
    let q ← dictIndex args "query"
    Dispatched.result <$> search_messages q (dictGetD args "max_results" (JVal.int 20)) account
  else if name == "gmail_send" then do
    let a_to ← dictIndex args "to"
    let a_subject ← dictIndex args "subject"
    let a_body ← dictIndex args "body"
    Dispatched.result <$> send_message a_to a_subject a_body account
  else if name == "gmail_create_draft" then do
    let a_to ← dictIndex args "to"
    let a_subject ← dictIndex args "subject"
    let a_body ← dictIndex args "body"
    Dispatched.result <$> create_draft a_to a_subject a_body account
  else if name == "gmail_list_labels" then
    Dispatched.result <$> list_labels account
  else if name == "gmail_archive" then do
    let mid ← dictIndex args "message_id"
    Dispatched.result <$> archive_message mid account
  else if name == "gmail_mark_read" then do
    let mid ← dictIndex args "message_id"
    Dispatched.result <$> mark_read mid account
  else if name == "gmail_mark_unread" then do
    let mid ← dictIndex args "message_id"
    Dispatched.result <$> mark_unread mid account
  else if name == "gmail_modify_labels" then do
    let mid ← dictIndex args "message_id"
    Dispatched.result <$> modify_labels mid (dictGetD args "add_labels" JVal.null)
      (dictGetD args "remove_labels" JVal.null) account
  else if name == "gmail_create_draft_reply" then do
    let mid ← dictIndex args "message_id"
    let a_body ← dictIndex args "body"
    Dispatched.result <$> create_draft_reply mid a_body
      (dictGetD args "reply_all" (JVal.bool false)) account
  else if name == "gmail_create_draft_forward" then do
    let mid ← dictIndex args "message_id"
    let a_to ← dictIndex args "to"
    Dispatched.result <$> create_draft_forward mid a_to
      (dictGetD args "body" (JVal.str "")) account
  else if name == "gmail_forward" then do
    let mid ← dictIndex args "message_id"
    let a_to ← dictIndex args "to"
    Dispatched.result <$> forward_message mid a_to
      (dictGetD args "body" (JVal.str "")) account
  else if name == "gmail_get_thread" then do
    let tid ← dictIndex args "thread_id"
    Dispatched.result <$> get_thread tid account
  else if name == "gmail_list_drafts" then
    Dispatched.result <$> list_drafts (dictGetD args "max_results" (JVal.int 10)) account
  else if name == "gmail_list_attachments" then do
    let mid ← dictIndex args "message_id"
    Dispatched.result <$> list_attachments mid account
  else if name == "gmail_get_attachment" then do
    let mid ← dictIndex args "message_id"
    let aid ← dictIndex args "attachment_id"
    Dispatched.result <$> get_attachment mid aid account
  else if name == "gmail_reauth" then
    Dispatched.result <$> reauth account
  else
    pure Dispatched.unknown

/-- The gmail `call_tool` entry point: run the dispatch chain inside
`try`, serialize a handler result as the success frame, answer unknown
names with `f"Unknown tool: {name}"`, and convert any raised exception
into the `f"Error: {str(e)}"` frame. -/
def call_tool (name : String) (args : Args) : Eff (List TextOut) :=
  tryEff
    (do
      match ← dispatch name args with
      | Dispatched.result v => pure [TextOut.json v]
      | Dispatched.unknown => pure [TextOut.text ("Unknown tool: " ++ name)])
    (fun e => pure [TextOut.text ("Error: " ++ e.msg)])

end Gmail

namespace Notes

/-- Escape a string for interpolation into AppleScript:
`s.replace('"', '\\"')`. -/
def escapeQ (s : String) : String := s.replace "\"" "\\\""

/-- Truthiness of an optional string parameter (`if account_name:`). -/
def strTruthy : Option String → Bool
  | some s => s ≠ ""
  | none => false

/-- Model of `int(s) if s.isdigit() else 0`. -/
def pyDigits (s : String) : Int :=
  if s ≠ "" && s.data.all Char.isDigit then ((s.toNat?).getD 0 : Int) else 0

/-- The `<html>...<h1>name</h1><br>body...</html>` body assembled by
`create_note` and `update_note`. -/
def htmlWrap (name body : String) : String :=
  "<html><head></head><body><h1>" ++ name ++ "</h1><br>" ++ body ++ "</body></html>"

/-- Model of `list_accounts`: parse `id||name` lines. -/
def list_accounts : Eff JVal := do
  let result ← runApplescriptMulti Script.listAccounts
  let accounts := (result.trim.splitOn "\n").filterMap (fun line =>
    if line ≠ "" && strContains line "||" then
      let parts := line.splitOn "||"
      some (JVal.obj
        [("id", JVal.str (parts.getD 0 "")), ("name", JVal.str (parts.getD 1 ""))])
    else none)
  pure (JVal.arr accounts)

/-- Model of `list_folders`: optionally account-filtered; the two scripts return
lines of different arity. -/
def list_folders (account_name : Option String := none) : Eff JVal := do
  let script :=
    if strTruthy account_name then Script.listFoldersIn (account_name.getD "")
    else Script.listFoldersAll
  let result ← runApplescriptMulti script
  let folders := (result.trim.splitOn "\n").filterMap (fun line =>
    if line ≠ "" && strContains line "||" then
      let parts := line.splitOn "||"
      if strTruthy account_name then
        some (JVal.obj
          [("id", JVal.str (parts.getD 0 "")), ("name", JVal.str (parts.getD 1 "")),
           ("note_count", JVal.int (pyDigits (parts.getD 2 "")))])
      else
        some (JVal.obj
          [("id", JVal.str (parts.getD 0 "")), ("name", JVal.str (parts.getD 1 "")),
           ("account", JVal.str (parts.getD 2 "")),
           ("note_count", JVal.int (pyDigits (parts.getD 3 "")))])
    else none)
  pure (JVal.arr folders)

/-- Model of `list_notes`: optionally folder-filtered. -/
def list_notes (folder_name : Option String := none)
    (max_results : JVal := JVal.int 50) : Eff JVal := do
  let script :=
    if strTruthy folder_name then
      Script.listNotesInFolder (folder_name.getD "") max_results
    else Script.listNotesAll max_results
  let result ← runApplescriptMulti script
  let notes := (result.trim.splitOn "\n").filterMap (fun line =>
    if line ≠ "" && strContains line "||" then
      let parts := line.splitOn "||"
      let base :=
        [("id", JVal.str (parts.getD 0 "")), ("name", JVal.str (parts.getD 1 "")),
         ("modification_date", JVal.str (parts.getD 2 ""))]
      some (JVal.obj
        (if !strTruthy folder_name && parts.length > 3 then
          base ++ [("folder", JVal.str (parts.getD 3 ""))]
        else base))
    else none)
  pure (JVal.arr notes)

/-- Model of `get_note`: parse the `||DELIM||`-separated record. -/
def get_note (note_id : String) : Eff JVal := do
  let escaped_id := escapeQ note_id
  let result ← runApplescriptMulti (Script.getNote escaped_id)
  let parts := result.splitOn "||DELIM||"
  pure (JVal.obj
    [("id", JVal.str (parts.getD 0 "")), ("name", JVal.str (parts.getD 1 "")),
     ("plaintext", JVal.str (parts.getD 2 "")),
     ("creation_date", JVal.str (parts.getD 3 "")),
     ("modification_date", JVal.str (parts.getD 4 "")),
     ("password_protected",
      JVal.bool (if parts.length > 5 then parts.getD 5 "" == "true" else false))])

/-- Model of `get_note_html`. -/
def get_note_html (note_id : String) : Eff JVal := do
  let escaped_id := escapeQ note_id
  let result ← runApplescriptMulti (Script.getNoteHtml escaped_id)
  let parts := result.splitOn "||DELIM||"
  pure (JVal.obj
    [("id", JVal.str (parts.getD 0 "")), ("name", JVal.str (parts.getD 1 "")),
     ("html", JVal.str (parts.getD 2 ""))])

/-- Model of `create_note`. -/
def create_note (name : String) (body : String) (folder_name : String := "Notes")
    (account_name : Option String := none) : Eff JVal := do
  let escaped_name := escapeQ name
  let escaped_body := (escapeQ body).replace "\n" "<br>"
  let escaped_folder := escapeQ folder_name
  let html_body := htmlWrap escaped_name escaped_body
  let script :=
    if strTruthy account_name then
      Script.createNoteIn (escapeQ (account_name.getD "")) escaped_folder html_body
    else
      Script.createNote escaped_folder html_body
  let result ← runApplescriptMulti script
  pure (JVal.obj
    [("id", JVal.str result), ("name", JVal.str name),
     ("folder", JVal.str folder_name)])

/-- Model of `update_note`: update body (fetching the current title when none is
supplied), or only the title, or — when neither `body` nor `name` is
provided — return the `error`-keyed dictionary without running any
script. -/
def update_note (note_id : String) (body : Option String := none)
    (name : Option String := none) : Eff JVal := do
  let escaped_id := escapeQ note_id
  match body with
  | some b => do
      let escaped_body := (escapeQ b).replace "\n" "<br>"
      let html_body ←
        if strTruthy name then
          pure (htmlWrap (escapeQ (name.getD "")) escaped_body)
        else do
          let current_name ← runApplescriptMulti (Script.getNoteName escaped_id)
          pure (htmlWrap (escapeQ current_name) escaped_body)
      let result ← runApplescriptMulti (Script.setNoteBody escaped_id html_body)
      pure (JVal.obj [("id", JVal.str result), ("updated", JVal.bool true)])
  | none =>
    match name with
    | some n => do
        let escaped_name := (escapeQ n).replace "\n" "\\n"
        let result ← runApplescriptMulti (Script.setNoteName escaped_id escaped_name)
        pure (JVal.obj [("id", JVal.str result), ("updated", JVal.bool true)])
    | none =>
        pure (JVal.obj [("error", JVal.str "Must provide body or name to update")])

/-- Model of `search_notes`: lowercase title search. -/
def search_notes (query : String) (max_results : JVal := JVal.int 20) : Eff JVal := do
  let escaped_query := (escapeQ query).toLower
  let result ← runApplescriptMulti (Script.searchNotes escaped_query max_results)
  let notes := (result.trim.splitOn "\n").filterMap (fun line =>
    if line ≠ "" && strContains line "||" then
      let parts := line.splitOn "||"
      some (JVal.obj
        [("id", JVal.str (parts.getD 0 "")), ("name", JVal.str (parts.getD 1 "")),
         ("modification_date", JVal.str (parts.getD 2 "")),
         ("folder", JVal.str (parts.getD 3 ""))])
    else none)
  pure (JVal.arr notes)

/-- Model of `delete_note`: fetch the note's name first, then delete. -/
def delete_note (note_id : String) : Eff JVal := do
  let escaped_id := escapeQ note_id
  let note_name ← runApplescriptMulti (Script.getNoteName escaped_id)
  let _ ← runApplescriptMulti (Script.deleteNote escaped_id)
  pure (JVal.obj
    [("deleted", JVal.bool true), ("note_id", JVal.str note_id),
     ("note_name", JVal.str note_name),
     ("recovery",
      JVal.str "Note moved to Recently Deleted folder. Recoverable for 30 days.")])

/-- Model of `show_note`. -/
def show_note (note_id : String) : Eff JVal := do
  let escaped_id := escapeQ note_id
  let _ ← runApplescriptMulti (Script.showNote escaped_id)
  pure (JVal.obj [("shown", JVal.bool true), ("note_id", JVal.str note_id)])

/-- A schema-declared optional string argument: `arguments.get(k)` is
`None` when absent or JSON `null`. -/
def optStr : Option JVal → Option String
  | some JVal.null => none
  | some v => some (jStrD v "")
  | none => none

/-- The `if name == ... elif ...` chain of the apple-notes `call_tool`. -/
def dispatch (name : String) (args : Args) : Eff Dispatched := do
  if name == "notes_list_accounts" then
    Dispatched.result <$> list_accounts
  else if name == "notes_list_folders" then
    Dispatched.result <$> list_folders (optStr (dictGet args "account_name"))
  else if name == "notes_list" then
    Dispatched.result <$> list_notes (optStr (dictGet args "folder_name"))
      (dictGetD args "max_results" (JVal.int 50))
  else if name == "notes_get" then do
    let nid ← dictIndex args "note_id"
    Dispatched.result <$> get_note (pyStr nid)
  else if name == "notes_get_html" then do
    let nid ← dictIndex args "note_id"
    Dispatched.result <$> get_note_html (pyStr nid)
  else if name == "notes_create" then do
    let n ← dictIndex args "name"
    let b ← dictIndex args "body"
    Dispatched.result <$> create_note (pyStr n) (pyStr b)
      (jStrD (dictGetD args "folder_name" (JVal.str "Notes")) "Notes")
      (optStr (dictGet args "account_name"))
  else if name == "notes_update" then do
    let nid ← dictIndex args "note_id"
    Dispatched.result <$> update_note (pyStr nid) (optStr (dictGet args "body"))
      (optStr (dictGet args "name"))
  else if name == "notes_search" then do
    let q ← dictIndex args "query"
    Dispatched.result <$> search_notes (pyStr q) (dictGetD args "max_results" (JVal.int 20))
  else if name == "notes_delete" then do
    let nid ← dictIndex args "note_id"
    Dispatched.result <$> delete_note (pyStr nid)
  else if name == "notes_show" then do
    let nid ← dictIndex args "note_id"
    Dispatched.result <$> show_note (pyStr nid)
  else
    pure Dispatched.unknown

/-- The apple-notes `call_tool` entry point (same try/except shape as the
gmail one). -/
def call_tool (name : String) (args : Args) : Eff (List TextOut) :=
  tryEff
    (do
      match ← dispatch name args with
      | Dispatched.result v => pure [TextOut.json v]
      | Dispatched.unknown => pure [TextOut.text ("Unknown tool: " ++ name)])
    (fun e => pure [TextOut.text ("Error: " ++ e.msg)])

end Notes

namespace GCal

/-- Model of `CONFIG_DIR = Path.home() / ".config" / "gcal-mcp"`. -/
def CONFIG_DIR : String := "~/.config/gcal-mcp"

/-- Model of `CREDENTIALS_FILE = CONFIG_DIR / "credentials.json"`. -/
def CREDENTIALS_FILE : String := CONFIG_DIR ++ "/credentials.json"

/-- Model of `TOKEN_FILE = CONFIG_DIR / "token.json"`. -/
def TOKEN_FILE : String := CONFIG_DIR ++ "/token.json"

/-- The `FileNotFoundError` message raised when the client-registration
material is missing. -/
def credsNotFoundMsg : String :=
  "Calendar credentials not found at " ++ CREDENTIALS_FILE ++ ". " ++
  "Please download OAuth credentials from Google Cloud Console."

/-- The `else` arm of the credential acquisition in
`get_calendar_service`. -/
def interactiveAcquire : Eff Creds := do
  let haveSecrets ← fsExists CREDENTIALS_FILE
  if haveSecrets then
    runFlow "calendar"
  else
    eRaise ⟨credsNotFoundMsg⟩

/-- Model of `get_calendar_service`: single-account variant of the session
provider with a fixed token path. -/
def get_calendar_service : Eff Service := do
  let stored ← fsRead TOKEN_FILE
  match stored with
  | some fc => do
      let creds ← liftE (from_authorized_user_file fc)
      if creds.valid then
        pure ⟨"calendar", creds⟩
      else do
        let creds2 ←
          if creds.expired && creds.hasRefreshToken then
            doRefresh "calendar" creds
          else
            interactiveAcquire
        fsWrite TOKEN_FILE (FileContent.tokenJson creds2)
        pure ⟨"calendar", creds2⟩
  | none => do
      let creds2 ← interactiveAcquire
      fsWrite TOKEN_FILE (FileContent.tokenJson creds2)
      pure ⟨"calendar", creds2⟩

/-- Model of `reauth`: delete the existing token (if any) and re-authenticate. -/
def reauth : Eff JVal := do
  let ex ← fsExists TOKEN_FILE
  if ex then
    fsUnlink TOKEN_FILE
  let _ ← get_calendar_service
  pure (JVal.obj
    [("success", JVal.bool true),
     ("message", JVal.str "Re-authenticated successfully with Google Calendar")])

end GCal

/-! ## Filesystem lemmas -/

theorem fsGet_nil (q : String) : fsGet [] q = none := rfl

theorem fsGet_cons (k : String) (v : FileContent) (rest : List (String × FileContent))
    (q : String) :
    fsGet ((k, v) :: rest) q = if q == k then some v else fsGet rest q := by
  unfold fsGet
  rw [List.lookup]
  cases h : q == k <;> simp [h]

theorem beq_symm_false {q p : String} (h : (p == q) = false) : (q == p) = false :=
  beq_eq_false_iff_ne.mpr (Ne.symm (beq_eq_false_iff_ne.mp h))

theorem fsGet_fsDel_self (fs : List (String × FileContent)) (p : String) :
    fsGet (fsDel fs p) p = none := by
  induction fs with
  | nil => rfl
  | cons kv rest ih =>
    obtain ⟨k, v⟩ := kv
    cases hb : k == p with
    | true => simpa [fsDel, hb] using ih
    | false =>
      rw [fsDel]
      simp only [hb, Bool.false_eq_true, if_false]
      rw [fsGet_cons, if_neg (by simp [beq_symm_false hb])]
      exact ih

theorem fsGet_fsDel_ne (fs : List (String × FileContent)) (p q : String)
    (h : q ≠ p) : fsGet (fsDel fs p) q = fsGet fs q := by
  induction fs with
  | nil => rfl
  | cons kv rest ih =>
    obtain ⟨k, v⟩ := kv
    cases hb : k == p with
    | true =>
      have hk : k = p := beq_iff_eq.mp hb
      rw [fsDel]
      simp only [hb, if_true]
      rw [fsGet_cons, if_neg (by simp [hk, h])]
      exact ih
    | false =>
      rw [fsDel]
      simp only [hb, Bool.false_eq_true, if_false]
      rw [fsGet_cons, fsGet_cons]
      cases hq : q == k with
      | true => simp
      | false => simpa [hq] using ih

theorem fsGet_append_right (l : List (String × FileContent)) (p q : String)
    (c : FileContent) (h : fsGet l q = none) :
    fsGet (l ++ [(p, c)]) q = if q == p then some c else none := by
  induction l with
  | nil => simp [fsGet_cons, fsGet_nil]
  | cons kv rest ih =>
    obtain ⟨k, v⟩ := kv
    rw [fsGet_cons] at h
    cases hq : q == k with
    | true => simp [hq] at h
    | false =>
      rw [List.cons_append, fsGet_cons]
      simp only [hq, Bool.false_eq_true, if_false]
      rw [if_neg (by simp [hq])] at h
      exact ih h

theorem fsGet_fsSet_self (fs : List (String × FileContent)) (p : String) (c : FileContent) :
    fsGet (fsSet fs p c) p = some c := by
  unfold fsSet
  rw [fsGet_append_right (fsDel fs p) p p c (fsGet_fsDel_self fs p)]
  simp

theorem fsGet_fsSet_ne (fs : List (String × FileContent)) (p q : String) (c : FileContent)
    (h : q ≠ p) : fsGet (fsSet fs p c) q = fsGet fs q := by
  unfold fsSet
  have hmain : ∀ l : List (String × FileContent),
      fsGet (l ++ [(p, c)]) q = fsGet l q := by
    intro l
    induction l with
    | nil => simp [fsGet_cons, fsGet_nil, beq_eq_false_iff_ne.mpr h]
    | cons kv rest ih =>
      obtain ⟨k, v⟩ := kv
      rw [List.cons_append, fsGet_cons, fsGet_cons]
      cases hq : q == k with
      | true => simp
      | false => simpa [hq] using ih
  rw [hmain (fsDel fs p), fsGet_fsDel_ne fs p q h]

theorem fsDel_of_absent (fs : List (String × FileContent)) (p : String)
    (h : fsGet fs p = none) : fsDel fs p = fs := by
  induction fs with
  | nil => rfl
  | cons kv rest ih =>
    obtain ⟨k, v⟩ := kv
    rw [fsGet_cons] at h
    cases hb : k == p with
    | true =>
      rw [if_pos (beq_iff_eq.mpr (Eq.symm (beq_iff_eq.mp hb)))] at h
      exact absurd h (by simp)
    | false =>
      rw [fsDel]
      simp only [hb, Bool.false_eq_true, if_false]
      rw [if_neg (by simp [beq_symm_false hb])] at h
      rw [ih h]

theorem fsDel_fsDel_self (fs : List (String × FileContent)) (p : String) :
    fsDel (fsDel fs p) p = fsDel fs p :=
  fsDel_of_absent (fsDel fs p) p (fsGet_fsDel_self fs p)

theorem fsDel_append_single_self (l : List (String × FileContent)) (p : String)
    (c : FileContent) : fsDel (l ++ [(p, c)]) p = fsDel l p := by
  induction l with
  | nil => simp [fsDel]
  | cons kv rest ih =>
    obtain ⟨k, v⟩ := kv
    rw [List.cons_append, fsDel, fsDel]
    cases hb : k == p with
    | true => simpa using ih
    | false => simp only [Bool.false_eq_true, if_false]; rw [ih]

theorem fsDel_fsSet_self (fs : List (String × FileContent)) (p : String) (c : FileContent) :
    fsDel (fsSet fs p c) p = fsDel fs p := by
  unfold fsSet
  rw [fsDel_append_single_self, fsDel_fsDel_self]

theorem countP_fsDel_self (fs : List (String × FileContent)) (p : String) :
    (fsDel fs p).countP (fun kv => kv.1 == p) = 0 := by
  induction fs with
  | nil => rfl
  | cons kv rest ih =>
    obtain ⟨k, v⟩ := kv
    rw [fsDel]
    cases hb : k == p with
    | true => simpa using ih
    | false =>
      simp only [Bool.false_eq_true, if_false]
      rw [List.countP_cons]
      simp [hb, ih]

theorem countP_fsSet_self (fs : List (String × FileContent)) (p : String) (c : FileContent) :
    (fsSet fs p c).countP (fun kv => kv.1 == p) = 1 := by
  unfold fsSet
  rw [List.countP_append, countP_fsDel_self, List.countP_cons]
  simp

/-! ## Session-provider execution lemmas -/

@[simp] theorem Eff.run_map {α β : Type} (f : α → β) (m : Eff α) (env : Env) (w : World) :
    (f <$> m).run env w =
      match m.run env w with
      | (Except.ok a, w') => (Except.ok (f a), w')
      | (Except.error e, w') => (Except.error e, w') := rfl

namespace Gmail

/-- No stored bundle is valid or refreshable for the account: the token
file is absent, or it parses to a bundle that is invalid and not
(expired with a refresh token). -/
def noUsableBundle (fs : List (String × FileContent)) (a : String) : Prop :=
  fsGet fs (get_token_file a) = none ∨
  ∃ c : Creds, fsGet fs (get_token_file a) = some (FileContent.tokenJson c) ∧
    c.valid = false ∧ (c.expired && c.hasRefreshToken) = false

theorem service_valid (env : Env) (w : World) (a : String) (c : Creds)
    (hs : fsGet w.fs (get_token_file a) = some (FileContent.tokenJson c))
    (hv : c.valid = true) :
    (get_gmail_service a).run env w = (Except.ok ⟨"gmail", c⟩, w) := by
  simp [get_gmail_service, hs, from_authorized_user_file, hv]

theorem service_refresh_ok (env : Env) (w : World) (a : String) (c c2 : Creds)
    (hs : fsGet w.fs (get_token_file a) = some (FileContent.tokenJson c))
    (hexp : c.expired = true) (hrt : c.hasRefreshToken = true)
    (href : env.refreshResult "gmail" c = Except.ok c2) :
    (get_gmail_service a).run env w =
      (Except.ok ⟨"gmail", c2⟩,
       ⟨fsSet w.fs (get_token_file a) (FileContent.tokenJson c2),
        w.trace ++ [Event.refreshExchange "gmail"]⟩) := by
  simp [get_gmail_service, hs, from_authorized_user_file, Creds.valid, hexp, hrt, href]

theorem service_refresh_err (env : Env) (w : World) (a : String) (c : Creds) (e : PyErr)
    (hs : fsGet w.fs (get_token_file a) = some (FileContent.tokenJson c))
    (hexp : c.expired = true) (hrt : c.hasRefreshToken = true)
    (href : env.refreshResult "gmail" c = Except.error e) :
    (get_gmail_service a).run env w =
      (Except.error e, ⟨w.fs, w.trace ++ [Event.refreshExchange "gmail"]⟩) := by
  simp [get_gmail_service, hs, from_authorized_user_file, Creds.valid, hexp, hrt, href]

theorem service_flow_ok (env : Env) (w : World) (a : String) (c2 : Creds)
    (hnb : noUsableBundle w.fs a)
    (hsec : (fsGet w.fs CREDENTIALS_FILE).isSome = true)
    (hflow : env.flowResult "gmail" = Except.ok c2) :
    (get_gmail_service a).run env w =
      (Except.ok ⟨"gmail", c2⟩,
       ⟨fsSet w.fs (get_token_file a) (FileContent.tokenJson c2),
        w.trace ++ [Event.interactiveAuth "gmail"]⟩) := by
  rcases hnb with hs | ⟨c, hs, hv, hur⟩
  · simp [get_gmail_service, interactiveAcquire, hs, hsec, hflow]
  · have hcond : ¬(c.expired = true ∧ c.hasRefreshToken = true) := by
      rintro ⟨h1, h2⟩
      rw [h1, h2] at hur
      simp at hur
    simp [get_gmail_service, interactiveAcquire, hs, from_authorized_user_file, hv, hcond,
      hsec, hflow]

theorem service_no_secrets (env : Env) (w : World) (a : String)
    (hnb : noUsableBundle w.fs a)
    (hsec : fsGet w.fs CREDENTIALS_FILE = none) :
    (get_gmail_service a).run env w = (Except.error ⟨credsNotFoundMsg⟩, w) := by
  rcases hnb with hs | ⟨c, hs, hv, hur⟩
  · simp [get_gmail_service, interactiveAcquire, hs, hsec]
  · have hcond : ¬(c.expired = true ∧ c.hasRefreshToken = true) := by
      rintro ⟨h1, h2⟩
      rw [h1, h2] at hur
      simp at hur
    simp [get_gmail_service, interactiveAcquire, hs, from_authorized_user_file, hv, hcond, hsec]

end Gmail

namespace GCal

/-- No stored bundle is valid or refreshable (single-account variant). -/
def noUsableBundle (fs : List (String × FileContent)) : Prop :=
  fsGet fs TOKEN_FILE = none ∨
  ∃ c : Creds, fsGet fs TOKEN_FILE = some (FileContent.tokenJson c) ∧
    c.valid = false ∧ (c.expired && c.hasRefreshToken) = false

theorem cal_service_valid (env : Env) (w : World) (c : Creds)
    (hs : fsGet w.fs TOKEN_FILE = some (FileContent.tokenJson c))
    (hv : c.valid = true) :
    get_calendar_service.run env w = (Except.ok ⟨"calendar", c⟩, w) := by
  simp [get_calendar_service, hs, from_authorized_user_file, hv]

theorem cal_service_refresh_ok (env : Env) (w : World) (c c2 : Creds)
    (hs : fsGet w.fs TOKEN_FILE = some (FileContent.tokenJson c))
    (hexp : c.expired = true) (hrt : c.hasRefreshToken = true)
    (href : env.refreshResult "calendar" c = Except.ok c2) :
    get_calendar_service.run env w =
      (Except.ok ⟨"calendar", c2⟩,
       ⟨fsSet w.fs TOKEN_FILE (FileContent.tokenJson c2),
        w.trace ++ [Event.refreshExchange "calendar"]⟩) := by
  simp [get_calendar_service, hs, from_authorized_user_file, Creds.valid, hexp, hrt, href]

theorem cal_service_refresh_err (env : Env) (w : World) (c : Creds) (e : PyErr)
    (hs : fsGet w.fs TOKEN_FILE = some (FileContent.tokenJson c))
    (hexp : c.expired = true) (hrt : c.hasRefreshToken = true)
    (href : env.refreshResult "calendar" c = Except.error e) :
    get_calendar_service.run env w =
      (Except.error e, ⟨w.fs, w.trace ++ [Event.refreshExchange "calendar"]⟩) := by
  simp [get_calendar_service, hs, from_authorized_user_file, Creds.valid, hexp, hrt, href]

theorem cal_service_no_secrets (env : Env) (w : World)
    (hnb : noUsableBundle w.fs)
    (hsec : fsGet w.fs CREDENTIALS_FILE = none) :
    get_calendar_service.run env w = (Except.error ⟨credsNotFoundMsg⟩, w) := by
  rcases hnb with hs | ⟨c, hs, hv, hur⟩
  · simp [get_calendar_service, interactiveAcquire, hs, hsec]
  · have hcond : ¬(c.expired = true ∧ c.hasRefreshToken = true) := by
      rintro ⟨h1, h2⟩
      rw [h1, h2] at hur
      simp at hur
    simp [get_calendar_service, interactiveAcquire, hs, from_authorized_user_file, hv, hcond,
      hsec]

end GCal

/-! ## Path-mapping lemmas -/

theorem token_fn_data_ne (a : String) :
    ("token_" ++ a ++ ".json" : String).data ≠ ("credentials.json" : String).data := by
  intro h2
  rw [String.data_append, String.data_append] at h2
  have ht : ("token_" : String).data = 't' :: ("oken_" : String).data := rfl
  have hc : ("credentials.json" : String).data = 'c' :: ("redentials.json" : String).data := rfl
  rw [ht, hc, List.cons_append, List.cons_append] at h2
  have h3 := congrArg List.head? h2
  simp only [List.head?_cons] at h3
  exact absurd (Option.some.inj h3) (by decide)

theorem lookup_cons_ne {β : Type} (k : String) (v : β) (rest : List (String × β))
    (q : String) (h : q ≠ k) : List.lookup q ((k, v) :: rest) = List.lookup q rest := by
  simp [List.lookup, beq_eq_false_iff_ne.mpr h]

theorem Gmail.get_token_file_ne_credentials (a : String) :
    Gmail.get_token_file a ≠ Gmail.CREDENTIALS_FILE := by
  unfold Gmail.get_token_file
  by_cases h1 : a = "primary"
  · subst h1
    decide
  · by_cases h2 : a = "secondary"
    · subst h2
      decide
    · have hl : List.lookup a Gmail.ACCOUNTS = none := by
        unfold Gmail.ACCOUNTS
        rw [lookup_cons_ne _ _ _ a h1, lookup_cons_ne _ _ _ a h2]
        rfl
      rw [hl]
      intro hcon
      have hd := congrArg String.data hcon
      unfold Gmail.CREDENTIALS_FILE at hd
      simp only [String.data_append, List.append_assoc] at hd
      have htail := List.append_cancel_left hd
      simp only [List.cons_append, List.nil_append] at htail
      have h3 := congrArg (fun l => l[1]?) htail
      simp only [List.getElem?_cons_succ, List.getElem?_cons_zero] at h3
      exact absurd h3 (by decide)

/-! ## Re-authentication execution -/

theorem fsSet_fsSet_self (fs : List (String × FileContent)) (p : String) (c c2 : FileContent) :
    fsSet (fsSet fs p c) p c2 = fsSet fs p c2 := by
  unfold fsSet
  rw [fsDel_append_single_self, fsDel_fsDel_self]

theorem fsSet_fsDel_self (fs : List (String × FileContent)) (p : String) (c : FileContent) :
    fsSet (fsDel fs p) p c = fsSet fs p c := by
  unfold fsSet
  rw [fsDel_fsDel_self]

theorem Gmail.reauth_run (env : Env) (w : World) (a : String) (c2 : Creds)
    (hsec : (fsGet w.fs CREDENTIALS_FILE).isSome = true)
    (hflow : env.flowResult "gmail" = Except.ok c2) :
    (reauth a).run env w =
      (Except.ok (JVal.obj
        [("success", JVal.bool true),
         ("message", JVal.str ("Re-authenticated successfully with Gmail (" ++ a ++ ")"))]),
       ⟨fsSet w.fs (get_token_file a) (FileContent.tokenJson c2),
        w.trace ++ [Event.interactiveAuth "gmail"]⟩) := by
  have hne : CREDENTIALS_FILE ≠ get_token_file a :=
    Ne.symm (get_token_file_ne_credentials a)
  by_cases hex : (fsGet w.fs (get_token_file a)).isSome = true
  · have hflowrun := service_flow_ok env ⟨fsDel w.fs (get_token_file a), w.trace⟩ a c2
      (Or.inl (fsGet_fsDel_self w.fs (get_token_file a)))
      (by
        show (fsGet (fsDel w.fs (get_token_file a)) CREDENTIALS_FILE).isSome = true
        rw [fsGet_fsDel_ne w.fs (get_token_file a) CREDENTIALS_FILE hne]
        exact hsec)
      hflow
    simp [reauth, hex, hflowrun, fsSet_fsDel_self]
  · have hnone : fsGet w.fs (get_token_file a) = none := by
      cases hv : fsGet w.fs (get_token_file a) with
      | none => rfl
      | some c => rw [hv] at hex; simp at hex
    have hflowrun := service_flow_ok env w a c2 (Or.inl hnone) hsec hflow
    simp [reauth, hnone, hflowrun]

/-! ## Concrete fixtures for witnesses and counterexamples -/

/-- An expired bundle still holding a refresh token. -/
def expiredCreds : Creds := ⟨true, true, true, "tok-old"⟩

/-- A fresh, valid bundle (as returned by a refresh exchange or an
interactive authorization). -/
def freshCreds : Creds := ⟨true, false, true, "tok-new"⟩

/-- An oracle whose refresh exchanges always fail with `invalid_grant`,
while interactive flows and external calls succeed. -/
def envRefreshFails : Env :=
  ⟨fun _ _ => Except.error ⟨"invalid_grant: Token has been expired or revoked."⟩,
   fun _ => Except.ok freshCreds,
   fun _ => Except.ok JVal.null,
   fun _ => Except.ok ""⟩

/-- An oracle whose refresh exchanges and flows succeed. -/
def envRefreshOk : Env :=
  ⟨fun _ _ => Except.ok freshCreds,
   fun _ => Except.ok freshCreds,
   fun _ => Except.ok JVal.null,
   fun _ => Except.ok ""⟩

/-- Gmail world: expired primary token and client secrets on disk. -/
def wExpiredGmail : World :=
  ⟨[(Gmail.get_token_file "primary", FileContent.tokenJson expiredCreds),
    (Gmail.CREDENTIALS_FILE, FileContent.clientSecrets)], []⟩

/-- Calendar world: expired token on disk. -/
def wExpiredGCal : World :=
  ⟨[(GCal.TOKEN_FILE, FileContent.tokenJson expiredCreds)], []⟩

/-- Empty filesystem world. -/
def wEmpty : World := ⟨[], []⟩

/-- Gmail world with client secrets only (no token). -/
def wSecretsGmail : World := ⟨[(Gmail.CREDENTIALS_FILE, FileContent.clientSecrets)], []⟩

/-! ## Claims C3 - C7 -/

/-- C3 (counterexample): with an expired, refresh-token-bearing stored
bundle whose refresh exchange fails — and client secrets on disk, so an
interactive flow would have been possible — `get_gmail_service` surfaces
the refresh failure itself and its trace records no interactive
authorization attempt, contradicting the claimed fall-through. -/
theorem claim_C3_counterexample :
    (Gmail.get_gmail_service "primary").run envRefreshFails wExpiredGmail =
      (Except.error ⟨"invalid_grant: Token has been expired or revoked."⟩,
       ⟨wExpiredGmail.fs, [Event.refreshExchange "gmail"]⟩) ∧
    List.countP Event.isInteractiveAuth [Event.refreshExchange "gmail"] = 0 :=
  ⟨rfl, rfl⟩

/-- C3 (amended): when the stored bundle is expired with a refresh token
and the refresh exchange fails, `getSession` performs exactly one refresh
exchange, surfaces the refresh failure directly, attempts no interactive
authorization, and leaves the filesystem unchanged — there is no
fall-through and no retry (shown for the gmail and gcal providers). -/
theorem claim_C3_refresh_failure_surfaces (env : Env) (w : World) (a : String)
    (c : Creds) (e : PyErr)
    (hexp : c.expired = true) (hrt : c.hasRefreshToken = true) :
    (fsGet w.fs (Gmail.get_token_file a) = some (FileContent.tokenJson c) →
     env.refreshResult "gmail" c = Except.error e →
     (Gmail.get_gmail_service a).run env w =
       (Except.error e, ⟨w.fs, w.trace ++ [Event.refreshExchange "gmail"]⟩)) ∧
    (fsGet w.fs GCal.TOKEN_FILE = some (FileContent.tokenJson c) →
     env.refreshResult "calendar" c = Except.error e →
     GCal.get_calendar_service.run env w =
       (Except.error e, ⟨w.fs, w.trace ++ [Event.refreshExchange "calendar"]⟩)) :=
  ⟨fun hs href => Gmail.service_refresh_err env w a c e hs hexp hrt href,
   fun hs href => GCal.cal_service_refresh_err env w c e hs hexp hrt href⟩

/-- C3 witness: the amended theorem applied at the concrete fixture. -/
theorem claim_C3_refresh_failure_surfaces_witness :
    (Gmail.get_gmail_service "primary").run envRefreshFails wExpiredGmail =
      (Except.error ⟨"invalid_grant: Token has been expired or revoked."⟩,
       ⟨wExpiredGmail.fs, wExpiredGmail.trace ++ [Event.refreshExchange "gmail"]⟩) :=
  (claim_C3_refresh_failure_surfaces envRefreshFails wExpiredGmail "primary" expiredCreds
    ⟨"invalid_grant: Token has been expired or revoked."⟩ rfl rfl).1 rfl rfl

/-- C4: when the stored bundle is expired and holds a refresh token and
the refresh exchange succeeds, `getSession` performs exactly one refresh
exchange (the trace grows by that single event, so no interactive
authorization is triggered), persists the refreshed bundle to the token
file before returning, and returns a handle built from the refreshed
credentials (shown for the gmail and gcal providers). -/
theorem claim_C4_refresh_persists (env : Env) (w : World) (a : String) (c c2 : Creds)
    (hexp : c.expired = true) (hrt : c.hasRefreshToken = true) :
    (fsGet w.fs (Gmail.get_token_file a) = some (FileContent.tokenJson c) →
     env.refreshResult "gmail" c = Except.ok c2 →
     (Gmail.get_gmail_service a).run env w =
       (Except.ok ⟨"gmail", c2⟩,
        ⟨fsSet w.fs (Gmail.get_token_file a) (FileContent.tokenJson c2),
         w.trace ++ [Event.refreshExchange "gmail"]⟩) ∧
     fsGet (fsSet w.fs (Gmail.get_token_file a) (FileContent.tokenJson c2))
       (Gmail.get_token_file a) = some (FileContent.tokenJson c2)) ∧
    (fsGet w.fs GCal.TOKEN_FILE = some (FileContent.tokenJson c) →
     env.refreshResult "calendar" c = Except.ok c2 →
     GCal.get_calendar_service.run env w =
       (Except.ok ⟨"calendar", c2⟩,
        ⟨fsSet w.fs GCal.TOKEN_FILE (FileContent.tokenJson c2),
         w.trace ++ [Event.refreshExchange "calendar"]⟩) ∧
     fsGet (fsSet w.fs GCal.TOKEN_FILE (FileContent.tokenJson c2)) GCal.TOKEN_FILE =
       some (FileContent.tokenJson c2)) :=
  ⟨fun hs href =>
      ⟨Gmail.service_refresh_ok env w a c c2 hs hexp hrt href,
       fsGet_fsSet_self w.fs (Gmail.get_token_file a) (FileContent.tokenJson c2)⟩,
   fun hs href =>
      ⟨GCal.cal_service_refresh_ok env w c c2 hs hexp hrt href,
       fsGet_fsSet_self w.fs GCal.TOKEN_FILE (FileContent.tokenJson c2)⟩⟩

/-- C4 witness: the refresh scenario run at the concrete calendar
fixture. -/
theorem claim_C4_refresh_persists_witness :
    GCal.get_calendar_service.run envRefreshOk wExpiredGCal =
      (Except.ok ⟨"calendar", freshCreds⟩,
       ⟨fsSet wExpiredGCal.fs GCal.TOKEN_FILE (FileContent.tokenJson freshCreds),
        wExpiredGCal.trace ++ [Event.refreshExchange "calendar"]⟩) ∧
    fsGet (fsSet wExpiredGCal.fs GCal.TOKEN_FILE (FileContent.tokenJson freshCreds))
      GCal.TOKEN_FILE = some (FileContent.tokenJson freshCreds) :=
  (claim_C4_refresh_persists envRefreshOk wExpiredGCal "primary" expiredCreds freshCreds
    rfl rfl).2 rfl rfl

/-- C5 (counterexample): the alias "evil" is outside the configured
account set, yet `get_token_file` still maps it to a path — one whose
file name embeds the request-supplied alias — contradicting "no path for
aliases outside the configured set" and "no part of the file name is
derived from the request input". -/
theorem claim_C5_counterexample :
    List.lookup "evil" Gmail.ACCOUNTS = none ∧
    Gmail.get_token_file "evil" = "~/.config/gmail-mcp/token_evil.json" :=
  ⟨rfl, rfl⟩

/-- C5 (amended): `get_token_file` is a fixed deterministic mapping: the
configured aliases map to the statically named files `token.json` and
`token_secondary.json`, and every alias outside the configured set maps
to `token_<alias>.json`, a file name derived from the request input. -/
theorem claim_C5_token_path_mapping (a : String) :
    Gmail.get_token_file "primary" = Gmail.CONFIG_DIR ++ "/token.json" ∧
    Gmail.get_token_file "secondary" = Gmail.CONFIG_DIR ++ "/token_secondary.json" ∧
    (List.lookup a Gmail.ACCOUNTS = none →
      Gmail.get_token_file a = Gmail.CONFIG_DIR ++ "/" ++ ("token_" ++ a ++ ".json")) := by
  refine ⟨rfl, rfl, fun hl => ?_⟩
  unfold Gmail.get_token_file
  rw [hl]

/-- C5 witness: the amended mapping evaluated at the alias "evil". -/
theorem claim_C5_token_path_mapping_witness :
    Gmail.get_token_file "evil" =
      Gmail.CONFIG_DIR ++ "/" ++ ("token_" ++ "evil" ++ ".json") :=
  (claim_C5_token_path_mapping "evil").2.2 rfl

/-- C6: when no valid or refreshable stored bundle exists and the
client-registration file is absent, `getSession` fails with the
`FileNotFoundError` whose message names the credentials path, attempts
no interactive flow and leaves the world (filesystem and trace) exactly
unchanged (shown for the gmail and gcal providers). -/
theorem claim_C6_no_secrets_fails_cleanly (env : Env) (w : World) (a : String) :
    (Gmail.noUsableBundle w.fs a → fsGet w.fs Gmail.CREDENTIALS_FILE = none →
      (Gmail.get_gmail_service a).run env w =
        (Except.error ⟨Gmail.credsNotFoundMsg⟩, w)) ∧
    (GCal.noUsableBundle w.fs → fsGet w.fs GCal.CREDENTIALS_FILE = none →
      GCal.get_calendar_service.run env w =
        (Except.error ⟨GCal.credsNotFoundMsg⟩, w)) ∧
    Gmail.credsNotFoundMsg =
      "Gmail credentials not found at " ++ Gmail.CREDENTIALS_FILE ++ "." ∧
    GCal.credsNotFoundMsg =
      "Calendar credentials not found at " ++ GCal.CREDENTIALS_FILE ++ ". " ++
      "Please download OAuth credentials from Google Cloud Console." :=
  ⟨fun hnb hsec => Gmail.service_no_secrets env w a hnb hsec,
   fun hnb hsec => GCal.cal_service_no_secrets env w hnb hsec,
   rfl, rfl⟩

/-- C6 witness: the empty filesystem. -/
theorem claim_C6_no_secrets_fails_cleanly_witness :
    (Gmail.get_gmail_service "primary").run envRefreshFails wEmpty =
      (Except.error ⟨Gmail.credsNotFoundMsg⟩, wEmpty) :=
  (claim_C6_no_secrets_fails_cleanly envRefreshFails wEmpty "primary").1 (Or.inl rfl) rfl

/-- C7: `reauth` deletes the stored token (a no-op when absent — the
initial world is arbitrary) and forces a fresh interactive authorization;
running it twice in succession, each completing the flow, succeeds, emits
exactly the two interactive-authorization events, leaves exactly one
credential file for the identity (content the flow's bundle), and touches
no other path. -/
theorem claim_C7_reauth_idempotent (env : Env) (w : World) (a : String) (c2 : Creds)
    (hsec : (fsGet w.fs Gmail.CREDENTIALS_FILE).isSome = true)
    (hflow : env.flowResult "gmail" = Except.ok c2) :
    (Gmail.reauth a >>= fun _ => Gmail.reauth a).run env w =
      (Except.ok (JVal.obj
        [("success", JVal.bool true),
         ("message", JVal.str ("Re-authenticated successfully with Gmail (" ++ a ++ ")"))]),
       ⟨fsSet w.fs (Gmail.get_token_file a) (FileContent.tokenJson c2),
        w.trace ++ [Event.interactiveAuth "gmail", Event.interactiveAuth "gmail"]⟩) ∧
    (fsSet w.fs (Gmail.get_token_file a) (FileContent.tokenJson c2)).countP
      (fun kv => kv.1 == Gmail.get_token_file a) = 1 ∧
    fsGet (fsSet w.fs (Gmail.get_token_file a) (FileContent.tokenJson c2))
      (Gmail.get_token_file a) = some (FileContent.tokenJson c2) ∧
    (∀ p : String, p ≠ Gmail.get_token_file a →
      fsGet (fsSet w.fs (Gmail.get_token_file a) (FileContent.tokenJson c2)) p =
        fsGet w.fs p) := by
  have hne : Gmail.CREDENTIALS_FILE ≠ Gmail.get_token_file a :=
    Ne.symm (Gmail.get_token_file_ne_credentials a)
  have h1 := Gmail.reauth_run env w a c2 hsec hflow
  have hsec2 : (fsGet (fsSet w.fs (Gmail.get_token_file a) (FileContent.tokenJson c2))
      Gmail.CREDENTIALS_FILE).isSome = true := by
    rw [fsGet_fsSet_ne w.fs (Gmail.get_token_file a) Gmail.CREDENTIALS_FILE
      (FileContent.tokenJson c2) hne]
    exact hsec
  have h2 := Gmail.reauth_run env
    ⟨fsSet w.fs (Gmail.get_token_file a) (FileContent.tokenJson c2),
     w.trace ++ [Event.interactiveAuth "gmail"]⟩ a c2 hsec2 hflow
  refine ⟨?_, countP_fsSet_self w.fs (Gmail.get_token_file a) (FileContent.tokenJson c2),
    fsGet_fsSet_self w.fs (Gmail.get_token_file a) (FileContent.tokenJson c2),
    fun p hp => fsGet_fsSet_ne w.fs (Gmail.get_token_file a) p (FileContent.tokenJson c2) hp⟩
  rw [Eff.run_bind, h1]
  simp only [h2, fsSet_fsSet_self]
  simp

/-- C7 witness: two re-authentications from a world holding only the
client secrets. -/
theorem claim_C7_reauth_idempotent_witness :
    (Gmail.reauth "primary" >>= fun _ => Gmail.reauth "primary").run
        envRefreshOk wSecretsGmail =
      (Except.ok (JVal.obj
        [("success", JVal.bool true),
         ("message", JVal.str "Re-authenticated successfully with Gmail (primary)")]),
       ⟨fsSet wSecretsGmail.fs (Gmail.get_token_file "primary")
          (FileContent.tokenJson freshCreds),
        wSecretsGmail.trace ++
          [Event.interactiveAuth "gmail", Event.interactiveAuth "gmail"]⟩) :=
  (claim_C7_reauth_idempotent envRefreshOk wSecretsGmail "primary" freshCreds rfl rfl).1

/-! ## Claims C1, C2, C8, C9, C10 -/

/-- C1: for every request `(name, arguments)` and every oracle and world,
the gmail `call_tool` returns exactly one content frame and never
propagates an exception: when the dispatch body produced a handler result
the frame is its success payload, when the name was unknown it is the
unknown-tool text, and when the handler (or argument extraction) raised,
it is the error payload carrying that exception's message text. -/
theorem claim_C1_dispatch_total (env : Env) (w : World) (name : String) (args : Args) :
    ∃ out w1, (Gmail.call_tool name args).run env w = (Except.ok out, w1) ∧
      out.length = 1 ∧
      (match (Gmail.dispatch name args).run env w with
       | (Except.ok (Dispatched.result v), w2) =>
           out = [TextOut.json v] ∧ w1 = w2
       | (Except.ok Dispatched.unknown, w2) =>
           out = [TextOut.text ("Unknown tool: " ++ name)] ∧ w1 = w2
       | (Except.error e, w2) =>
           out = [TextOut.text ("Error: " ++ e.msg)] ∧ w1 = w2) := by
  cases hd : (Gmail.dispatch name args).run env w with
  | mk r w2 =>
    cases r with
    | ok d =>
      cases d with
      | result v =>
        refine ⟨[TextOut.json v], w2, ?_, rfl, ?_⟩
        · simp [Gmail.call_tool, hd]
        · exact ⟨rfl, rfl⟩
      | unknown =>
        refine ⟨[TextOut.text ("Unknown tool: " ++ name)], w2, ?_, rfl, ?_⟩
        · simp [Gmail.call_tool, hd]
        · exact ⟨rfl, rfl⟩
    | error e =>
      refine ⟨[TextOut.text ("Error: " ++ e.msg)], w2, ?_, rfl, ?_⟩
      · simp [Gmail.call_tool, hd]
      · exact ⟨rfl, rfl⟩

/-- World with a valid token stored for the unconfigured alias "evil". -/
def wEvilGmail : World :=
  ⟨[(Gmail.get_token_file "evil", FileContent.tokenJson freshCreds)], []⟩

/-- C2 (counterexample): the request supplies `account = "evil"`, a value
outside the declared enumeration (`ACCOUNTS` has no such alias), yet
dispatch runs the handler all the way to its external API call — the
trace records the labels-list call — and returns a success payload
instead of any InvalidArgument-style error. -/
theorem claim_C2_counterexample :
    (Gmail.call_tool "gmail_list_labels" [("account", JVal.str "evil")]).run
        envRefreshOk wEvilGmail =
      (Except.ok [TextOut.json (JVal.arr [])],
       ⟨wEvilGmail.fs, [Event.api ApiCall.labelsList]⟩) ∧
    List.lookup "evil" Gmail.ACCOUNTS = none :=
  ⟨rfl, rfl⟩

/-- C2 (amended): dispatch performs no schema validation.  A missing
required argument (here `to` of `gmail_send`) surfaces as a `KeyError`
from direct dictionary access before the handler runs, is caught at the
dispatch boundary, and is rendered as an error payload naming the missing
key, with the world unchanged; wrong-typed values and values outside a
declared enumerated set are not rejected — the handler executes with
them (the counterexample run shows a handler completing for an `account`
outside the enumeration). -/
theorem claim_C2_no_validation (env : Env) (w : World) (args : Args)
    (hto : dictGet args "to" = none) :
    (Gmail.call_tool "gmail_send" args).run env w =
      (Except.ok [TextOut.text "Error: 'to'"], w) := by
  simp [Gmail.call_tool, Gmail.dispatch, dictIndex, hto]

/-- C2 witness: the amended behavior at a concrete argument mapping. -/
theorem claim_C2_no_validation_witness :
    (Gmail.call_tool "gmail_send" [("subject", JVal.str "S")]).run
        envRefreshOk wEmpty =
      (Except.ok [TextOut.text "Error: 'to'"], wEmpty) :=
  claim_C2_no_validation envRefreshOk wEmpty [("subject", JVal.str "S")] rfl

/-- C8: dispatching `gmail_send` with `to` and `subject` but no `body`
returns the error payload `Error: 'body'` — whose text mentions `body` —
and leaves the world unchanged: no send call (indeed no external call at
all) is performed. -/
theorem claim_C8_send_missing_body (env : Env) (w : World) (args : Args)
    (vto vsub : JVal)
    (hto : dictGet args "to" = some vto)
    (hsub : dictGet args "subject" = some vsub)
    (hbody : dictGet args "body" = none) :
    (Gmail.call_tool "gmail_send" args).run env w =
      (Except.ok [TextOut.text "Error: 'body'"], w) ∧
    strContains "Error: 'body'" "body" = true := by
  constructor
  · simp [Gmail.call_tool, Gmail.dispatch, dictIndex, hto, hsub, hbody]
  · decide

/-- C8 witness: the concrete request from the specification scenario. -/
theorem claim_C8_send_missing_body_witness :
    (Gmail.call_tool "gmail_send"
        [("to", JVal.str "a@b.com"), ("subject", JVal.str "S")]).run
        envRefreshOk wEmpty =
      (Except.ok [TextOut.text "Error: 'body'"], wEmpty) :=
  (claim_C8_send_missing_body envRefreshOk wEmpty
    [("to", JVal.str "a@b.com"), ("subject", JVal.str "S")]
    (JVal.str "a@b.com") (JVal.str "S") rfl rfl rfl).1

/-- C9: a request whose name is not in the registered tool list gets the
single `Unknown tool: <name>` frame, with the world — filesystem and
external-call trace — unchanged: no handler ran and no external call was
made; `call_tool` returns normally, so the dispatch loop continues. -/
theorem claim_C9_unknown_tool (env : Env) (w : World) (name : String) (args : Args)
    (h : name ∉ Gmail.toolNames) :
    (Gmail.call_tool name args).run env w =
      (Except.ok [TextOut.text ("Unknown tool: " ++ name)], w) := by
  simp only [Gmail.toolNames, List.mem_cons, List.not_mem_nil, or_false] at h
  push_neg at h
  obtain ⟨h1, h2, h3, h4, h5, h6, h7, h8, h9, h10, h11, h12, h13, h14, h15, h16, h17,
    h18, h19⟩ := h
  simp [Gmail.call_tool, Gmail.dispatch, beq_iff_eq,
    h1, h2, h3, h4, h5, h6, h7, h8, h9, h10, h11, h12, h13, h14, h15, h16, h17, h18, h19]

/-- C9 witness: an unregistered name. -/
theorem claim_C9_unknown_tool_witness :
    (Gmail.call_tool "gmail_quantum" []).run envRefreshOk wEmpty =
      (Except.ok [TextOut.text ("Unknown tool: " ++ "gmail_quantum")], wEmpty) :=
  claim_C9_unknown_tool envRefreshOk wEmpty "gmail_quantum" [] (by decide)

/-- C10: `notes_update` with a `note_id` but neither `body` nor `name`
returns — without raising and with the world unchanged, so no AppleScript
ran — the success-shaped payload serializing the dictionary
`{"error": "Must provide body or name to update"}`: this failure travels
through the normal success envelope, not the uniform error path. -/
theorem claim_C10_update_note_error_dict (env : Env) (w : World) (args : Args) (nid : JVal)
    (hnid : dictGet args "note_id" = some nid)
    (hbody : dictGet args "body" = none)
    (hname : dictGet args "name" = none) :
    (Notes.call_tool "notes_update" args).run env w =
      (Except.ok [TextOut.json
        (JVal.obj [("error", JVal.str "Must provide body or name to update")])], w) := by
  simp [Notes.call_tool, Notes.dispatch, dictIndex, hnid, hbody, hname, Notes.optStr,
    Notes.update_note]

/-- C10 witness: the concrete request. -/
theorem claim_C10_update_note_error_dict_witness :
    (Notes.call_tool "notes_update" [("note_id", JVal.str "x-note-1")]).run
        envRefreshOk wEmpty =
      (Except.ok [TextOut.json
        (JVal.obj [("error", JVal.str "Must provide body or name to update")])], wEmpty) :=
  claim_C10_update_note_error_dict envRefreshOk wEmpty
    [("note_id", JVal.str "x-note-1")] (JVal.str "x-note-1") rfl rfl rfl

end MCP
